import Mathlib

set_option maxRecDepth 100000

/-!
Shallow embedding of the Blockfrost proxy workers of this repository.

The repository ships three variants of the Cloudflare worker:
* `WorkerA` — `src/cloudflare-worker.js` (event-listener style: `handleRequest`,
  `handleCORS`, `getCORSHeaders`, `checkRateLimit`, `isAllowedEndpoint`);
* `WorkerB` — `src/unnamed/part_000` (ES-module style: `getCorsHeaders`,
  `handleOptions`, `handleRequest`, no rate limiter);
* `WorkerC` — the worker source embedded in `src/DEPLOYMENT_GUIDE.md`
  (ES-module style with `isRateLimited`, a `Retry-After` header on 429 and a
  generic 500 body).

JavaScript strings are Lean `String`s, timestamps (`Date.now()`) are `Nat`,
request bodies are both a byte list (`arrayBuffer`) and a text view (`text()`),
and the in-memory `Map` used by the rate limiters is an association list whose
`set` prepends (lookup takes the first hit, which matches `Map.set`/`Map.get`
observationally).  The upstream `fetch` is an oracle argument: `Except.ok`
carries the upstream reply, `Except.error` carries the thrown exception's
`message`.  Each handler returns, besides the `Response`, the rate-limit store
it leaves behind and an `Option` record of the upstream call it issued, so that
"no later pipeline stage executes" is an observable statement.
-/

namespace Proxy

/-- JavaScript truthiness for an optional string header or variable
(`undefined`/`null`/`""` are falsy). -/
def isTruthy : Option String → Bool
  | none => false
  | some s => !(s == "")

/-- Character class `[0-9a-z]` of the whitelist regexes. -/
def isLowerAlnum (c : Char) : Bool := c.isDigit || ('a' ≤ c && c ≤ 'z')

/-- Character class `[0-9a-f]` of the transaction-hash regex. -/
def isLowerHex (c : Char) : Bool := c.isDigit || ('a' ≤ c && c ≤ 'f')

/-- Decides the regex `cls* suf $` on `s`:
either `s` is exactly `suf`, or its head is in the class and the tail matches
again. -/
def matchClassStar (cls : Char → Bool) (suf : List Char) : List Char → Bool
  | [] => suf.isEmpty
  | c :: cs => ((c :: cs) == suf) || (cls c && matchClassStar cls suf cs)

/-- Decides the regex `cls+ suf $`. -/
def matchClassPlus (cls : Char → Bool) (suf : List Char) : List Char → Bool
  | [] => false
  | c :: cs => cls c && matchClassStar cls suf cs

/-- Decides the anchored regex `^ pre cls+ suf $`. -/
def matchPat (pre : String) (cls : Char → Bool) (suf : String) (s : List Char) : Bool :=
  pre.data.isPrefixOf s && matchClassPlus cls suf.data (s.drop pre.data.length)

/-- Removes the first occurrence of `pat` from the character list, as
JavaScript `String.replace(pat, given an empty replacement)` does. -/
def removeFirstAux (pat : List Char) : List Char → List Char
  | [] => []
  | c :: cs =>
    if pat.isPrefixOf (c :: cs) then List.drop pat.length (c :: cs)
    else c :: removeFirstAux pat cs

/-- JavaScript `s.replace(pat, an empty string)`: first occurrence only. -/
def replaceFirst (s pat : String) : String := ⟨removeFirstAux pat.data s.data⟩

/-- An inbound HTTP request as the workers observe it: method, URL path,
the `Origin` and `CF-Connecting-IP` headers, and the body both as raw bytes
(`request.arrayBuffer()`) and as decoded text (`request.text()`). -/
structure Request where
  method : String
  path : String
  origin : Option String
  cfIP : Option String
  bodyBytes : List Nat
  bodyText : String
deriving Repr, DecidableEq

/-- The response-header fields any of the three workers ever sets.  A `none`
field is an absent header. -/
structure RespHeaders where
  acao : Option String := none
  acac : Option String := none
  allowMethods : Option String := none
  allowHeaders : Option String := none
  maxAge : Option String := none
  contentType : Option String := none
  retryAfter : Option String := none
deriving Repr, DecidableEq

/-- A client-visible HTTP response (body `none` models `null`). -/
structure Response where
  status : Nat
  body : Option String
  headers : RespHeaders
deriving Repr, DecidableEq

/-- What the upstream `fetch` returned: status, text body, and the upstream
`Content-Type` header (absent modelled as `none`). -/
structure UpstreamReply where
  status : Nat
  body : String
  contentType : Option String
deriving Repr, DecidableEq

/-- Oracle for the upstream call: a reply, or a thrown exception's message. -/
abbrev UpstreamResult := Except String UpstreamReply

/-- JavaScript `x || d` on an optional string. -/
def orDefault (o : Option String) (d : String) : String :=
  if isTruthy o then o.getD "" else d

/-- Embeds `BLOCKFROST_BASE_URL`, defined identically in all three worker sources. -/
def BLOCKFROST_BASE_URL : String := "https://cardano-mainnet.blockfrost.io/api/v0"

namespace WorkerA

/- Embedding of `src/cloudflare-worker.js`. -/

def ALLOWED_ORIGINS : List String :=
  ["https://gs1973.github.io", "https://smitblockchainops.nl", "http://localhost:3000"]

def maxRequests : Nat := 100

def windowMs : Nat := 60000

/-- One entry of `rateLimitStore`: `{ count, resetTime }`. -/
structure Record where
  count : Nat
  resetTime : Nat
deriving Repr, DecidableEq

/-- The in-memory `rateLimitStore` map, keyed by the (possibly null)
`CF-Connecting-IP` header. -/
abbrev Store := List (Option String × Record)

def storeFind : Store → Option String → Option Record
  | [], _ => none
  | (k, v) :: rest, key => if k == key then some v else storeFind rest key

def storeSet (s : Store) (k : Option String) (v : Record) : Store := (k, v) :: s

/-- Embeds `getCORSHeaders(origin)` of `src/cloudflare-worker.js`: empty when the
origin is absent, otherwise echoes it with the credentials flag. -/
def getCORSHeaders (origin : Option String) : RespHeaders :=
  if isTruthy origin then { acao := origin, acac := some "true" }
  else {}

/-- Embeds `checkRateLimit(clientIP)`: fixed window; the record is reset (count 0,
fresh `resetTime`) once `now` passes `resetTime`, then the count is always
incremented; the request is allowed while the new count is at most
`maxRequests`.  Returns the allowed flag and the updated store. -/
def checkRateLimit (store : Store) (clientIP : Option String) (now : Nat) :
    Bool × Store :=
  let clientData := (storeFind store clientIP).getD { count := 0, resetTime := now + windowMs }
  let clientData :=
    if now > clientData.resetTime then { count := 0, resetTime := now + windowMs }
    else clientData
  let clientData : Record := { clientData with count := clientData.count + 1 }
  (clientData.count ≤ maxRequests, storeSet store clientIP clientData)

/-- Embeds `isAllowedEndpoint(endpoint)`: the eight whitelist regexes of
`src/cloudflare-worker.js`, tested in source order. -/
def isAllowedEndpoint (endpoint : String) : Bool :=
  let e := endpoint.data
  matchPat "accounts/stake" isLowerAlnum "" e
  || (e == "txs".data)
  || ("txs/".data.isPrefixOf e
        && ((e.drop 4).length == 64 && (e.drop 4).all isLowerHex))
  || matchPat "addresses/addr" isLowerAlnum "/utxos" e
  || (e == "epochs/latest/parameters".data)
  || (e == "epochs/latest".data)
  || matchPat "pools/pool" isLowerAlnum "" e
  || matchPat "pools/pool" isLowerAlnum "/metadata" e

/-- The upstream `fetch` call `src/cloudflare-worker.js` builds: URL, method,
the `project_id` credential header, the `Content-Type` header, and the body
(present only for POST/PUT, as the request's text). -/
structure FetchCall where
  url : String
  method : String
  projectId : String
  contentType : String
  bodyText : Option String
deriving Repr, DecidableEq

/-- Result of one `handleRequest` invocation: the response, the rate-limit
store left behind, and the upstream call issued (if any). -/
structure Result where
  resp : Response
  store : Store
  call : Option FetchCall
deriving Repr, DecidableEq

/-- Embeds `JSON.stringify(\x7b error: msg \x7d)` for plain messages. -/
def jsonErrorBody (msg : String) : String :=
  "\x7b\"error\":\"" ++ msg ++ "\"\x7d"

/-- Embeds `handleCORS(request)` of `src/cloudflare-worker.js`. -/
def handleCORS (req : Request) : Response :=
  if isTruthy req.origin && !(ALLOWED_ORIGINS.contains (req.origin.getD "")) then
    { status := 403, body := some "Forbidden", headers := {} }
  else
    let h := getCORSHeaders req.origin
    let h := { h with
      allowMethods := some "GET, POST, OPTIONS",
      allowHeaders := some "Content-Type",
      maxAge := if isTruthy req.origin then some "86400" else none }
    { status := 204, body := none, headers := h }

/-- Embeds `handleRequest(request, env)` of `src/cloudflare-worker.js`.  `apiKey` is
`env.BLOCKFROST_API_KEY`; `upstream` is the oracle for the single `fetch`. -/
def handleRequest (apiKey : Option String) (req : Request) (store : Store)
    (now : Nat) (upstream : UpstreamResult) : Result :=
  if !(isTruthy apiKey) then
    { resp := { status := 500, body := some "Configuration error: API key not set",
                headers := {} },
      store := store, call := none }
  else if req.method == "OPTIONS" then
    { resp := handleCORS req, store := store, call := none }
  else if isTruthy req.origin && !(ALLOWED_ORIGINS.contains (req.origin.getD "")) then
    { resp := { status := 403, body := some "Forbidden",
                headers := { contentType := some "text/plain" } },
      store := store, call := none }
  else
    let rl := checkRateLimit store req.cfIP now
    if !rl.1 then
      { resp := { status := 429, body := some "Rate limit exceeded",
                  headers := getCORSHeaders req.origin },
        store := rl.2, call := none }
    else
      let endpoint := replaceFirst req.path "/api/"
      if !(isAllowedEndpoint endpoint) then
        { resp := { status := 403, body := some "Endpoint not allowed",
                    headers := getCORSHeaders req.origin },
          store := rl.2, call := none }
      else
        let call : FetchCall :=
          { url := BLOCKFROST_BASE_URL ++ "/" ++ endpoint,
            method := req.method,
            projectId := apiKey.getD "",
            contentType := "application/json",
            bodyText :=
              if req.method == "POST" || req.method == "PUT" then some req.bodyText
              else none }
        match upstream with
        | .ok r =>
          { resp := { status := r.status, body := some r.body,
                      headers := { getCORSHeaders req.origin with
                                   contentType := some "application/json" } },
            store := rl.2, call := some call }
        | .error msg =>
          { resp := { status := 500, body := some (jsonErrorBody msg),
                      headers := { getCORSHeaders req.origin with
                                   contentType := some "application/json" } },
            store := rl.2, call := some call }

end WorkerA

/-- A sequence of `checkRateLimit` invocations for one client, at the given
times: collects the allowed flags and threads the store. -/
def runSeqA (store : WorkerA.Store) (ip : Option String) :
    List Nat → List Bool × WorkerA.Store
  | [] => ([], store)
  | t :: ts =>
    let r := WorkerA.checkRateLimit store ip t
    let rest := runSeqA r.2 ip ts
    (r.1 :: rest.1, rest.2)

namespace WorkerB

/- Embedding of `src/unnamed/part_000` (the ES-module worker without a rate
limiter).  The worker embedded in `src/DEPLOYMENT_GUIDE.md` repeats
`ALLOWED_ORIGINS`, `CORS_HEADERS`, `getCorsHeaders`, `handleOptions` and the
`allowedPaths` list verbatim, so `WorkerC` below reuses these definitions. -/

def ALLOWED_ORIGINS : List String :=
  ["https://gs1973.github.io", "https://smitblockchainops.nl",
   "https://www.smitblockchainops.nl"]

/-- Embeds `getCorsHeaders(request)`: always the static `CORS_HEADERS`, plus
`Access-Control-Allow-Origin` echoing the origin when it is allowed. -/
def getCorsHeaders (origin : Option String) : RespHeaders :=
  let h : RespHeaders :=
    { allowMethods := some "GET, POST, OPTIONS",
      allowHeaders := some "Content-Type, project_id",
      maxAge := some "86400" }
  if isTruthy origin && ALLOWED_ORIGINS.contains (origin.getD "") then
    { h with acao := origin }
  else h

/-- Embeds `handleOptions(request)`: 204 with the CORS headers when the origin was
allowed (the `Access-Control-Allow-Origin` key is present), else a bare 403. -/
def handleOptions (req : Request) : Response :=
  let cors := getCorsHeaders req.origin
  if cors.acao.isSome then { status := 204, body := none, headers := cors }
  else { status := 403, body := some "Forbidden", headers := {} }

/-- The `allowedPaths` regex list, tested in source order against the full
URL pathname. -/
def isAllowedPath (path : String) : Bool :=
  let p := path.data
  matchPat "/accounts/stake" isLowerAlnum "" p
  || matchPat "/pools/pool" isLowerAlnum "" p
  || (p == "/tx/submit".data)
  || (p == "/epochs/latest/parameters".data)
  || matchPat "/addresses/" isLowerAlnum "/utxos" p

/-- The upstream `fetch` call the module workers build: URL, method, the
`project_id` credential header (straight from the environment, possibly
absent), the `Content-Type` header, and the raw body bytes for POST. -/
structure FetchCall where
  url : String
  method : String
  projectId : Option String
  contentType : String
  bodyBytes : Option (List Nat)
deriving Repr, DecidableEq

/-- Result of one `handleRequest` invocation of `src/unnamed/part_000`. -/
structure Result where
  resp : Response
  call : Option FetchCall
deriving Repr, DecidableEq

/-- Embeds `JSON.stringify(\x7b error: 'Endpoint not allowed' \x7d)`. -/
def endpointNotAllowedBody : String := "\x7b\"error\":\"Endpoint not allowed\"\x7d"

/-- Embeds `JSON.stringify(\x7b error: 'Proxy error', message: error.message \x7d)`. -/
def proxyErrorBody (msg : String) : String :=
  "\x7b\"error\":\"Proxy error\",\"message\":\"" ++ msg ++ "\"\x7d"

/-- Embeds `handleRequest(request, env)` of `src/unnamed/part_000`. -/
def handleRequest (req : Request) (apiKey : Option String)
    (upstream : UpstreamResult) : Result :=
  let cors := getCorsHeaders req.origin
  if !cors.acao.isSome then
    { resp := { status := 403, body := some "Forbidden", headers := {} }, call := none }
  else if !(isAllowedPath req.path) then
    { resp := { status := 403, body := some endpointNotAllowedBody,
                headers := { cors with contentType := some "application/json" } },
      call := none }
  else
    let ct :=
      if req.path == "/tx/submit" && req.method == "POST" then "application/cbor"
      else "application/json"
    let call : FetchCall :=
      { url := BLOCKFROST_BASE_URL ++ req.path,
        method := req.method,
        projectId := apiKey,
        contentType := ct,
        bodyBytes := if req.method == "POST" then some req.bodyBytes else none }
    match upstream with
    | .ok r =>
      { resp := { status := r.status, body := some r.body,
                  headers := { cors with
                               contentType := some (orDefault r.contentType "application/json") } },
        call := some call }
    | .error msg =>
      { resp := { status := 500, body := some (proxyErrorBody msg),
                  headers := { cors with contentType := some "application/json" } },
        call := some call }

/-- The exported `fetch(request, env)` of `src/unnamed/part_000`. -/
def fetchEntry (req : Request) (apiKey : Option String)
    (upstream : UpstreamResult) : Result :=
  if req.method == "OPTIONS" then { resp := handleOptions req, call := none }
  else handleRequest req apiKey upstream

end WorkerB

namespace WorkerC

/- Embedding of the worker source embedded in `src/DEPLOYMENT_GUIDE.md`,
which is `src/unnamed/part_000` plus an `isRateLimited` limiter, a
`Retry-After` header on 429, and a generic 500 body with server-side
logging.  Its `BLOCKFROST_BASE_URL`, `ALLOWED_ORIGINS`, `CORS_HEADERS`,
`getCorsHeaders`, `handleOptions` and `allowedPaths` repeat
`src/unnamed/part_000` verbatim, so those embeddings are shared with
`WorkerB`. -/

def MAX_REQUESTS : Nat := 30

def WINDOW_MS : Nat := 60000

/-- One entry of `rateLimitStore`: `{ windowStart, count }`. -/
structure Record where
  windowStart : Nat
  count : Nat
deriving Repr, DecidableEq

/-- The in-memory `rateLimitStore` map, keyed by `getRateLimitKey`. -/
abbrev Store := List (String × Record)

def storeFind : Store → String → Option Record
  | [], _ => none
  | (k, v) :: rest, key => if k == key then some v else storeFind rest key

def storeSet (s : Store) (k : String) (v : Record) : Store := (k, v) :: s

/-- Embeds `getRateLimitKey(request)`: the `CF-Connecting-IP` header, defaulting to
the string `unknown`. -/
def getRateLimitKey (req : Request) : String :=
  if isTruthy req.cfIP then req.cfIP.getD "" else "unknown"

/-- Embeds `isRateLimited(key)`: a missing or expired record starts a fresh window
with count 1; a record already at `MAX_REQUESTS` answers limited without
touching the store; otherwise the count is incremented.  Returns the limited
flag and the updated store. -/
def isRateLimited (store : Store) (key : String) (now : Nat) : Bool × Store :=
  match storeFind store key with
  | none => (false, storeSet store key { windowStart := now, count := 1 })
  | some record =>
    if now - record.windowStart > WINDOW_MS then
      (false, storeSet store key { windowStart := now, count := 1 })
    else if record.count ≥ MAX_REQUESTS then (true, store)
    else (false, storeSet store key { record with count := record.count + 1 })

/-- Embeds `JSON.stringify(\x7b error: 'Too many requests. Please try again later.' \x7d)`. -/
def tooManyRequestsBody : String :=
  "\x7b\"error\":\"Too many requests. Please try again later.\"\x7d"

/-- The generic 500 body of the guide worker's catch block. -/
def genericErrorBody : String :=
  "\x7b\"error\":\"An error occurred while processing your request.\"\x7d"

/-- Result of one guide-worker `handleRequest` invocation; `log` records the
`console.error` argument (server-side only). -/
structure Result where
  resp : Response
  store : Store
  call : Option WorkerB.FetchCall
  log : Option String
deriving Repr, DecidableEq

/-- Embeds `handleRequest(request, env)` of the worker in `src/DEPLOYMENT_GUIDE.md`. -/
def handleRequest (req : Request) (apiKey : Option String) (store : Store)
    (now : Nat) (upstream : UpstreamResult) : Result :=
  let cors := WorkerB.getCorsHeaders req.origin
  if !cors.acao.isSome then
    { resp := { status := 403, body := some "Forbidden", headers := {} },
      store := store, call := none, log := none }
  else
    let rl := isRateLimited store (getRateLimitKey req) now
    if rl.1 then
      let h429 := { cors with contentType := some "application/json", retryAfter := some "60" }
      { resp := { status := 429, body := some tooManyRequestsBody, headers := h429 },
        store := rl.2, call := none, log := none }
    else if !(WorkerB.isAllowedPath req.path) then
      { resp := { status := 403, body := some WorkerB.endpointNotAllowedBody,
                  headers := { cors with contentType := some "application/json" } },
        store := rl.2, call := none, log := none }
    else
      let ct :=
        if req.path == "/tx/submit" && req.method == "POST" then "application/cbor"
        else "application/json"
      let call : WorkerB.FetchCall :=
        { url := BLOCKFROST_BASE_URL ++ req.path,
          method := req.method,
          projectId := apiKey,
          contentType := ct,
          bodyBytes := if req.method == "POST" then some req.bodyBytes else none }
      match upstream with
      | .ok r =>
        { resp := { status := r.status, body := some r.body,
                    headers := { cors with
                                 contentType := some (orDefault r.contentType "application/json") } },
          store := rl.2, call := some call, log := none }
      | .error msg =>
        { resp := { status := 500, body := some genericErrorBody,
                    headers := { cors with contentType := some "application/json" } },
          store := rl.2, call := some call, log := some msg }

/-- The exported `fetch(request, env)` of the guide worker. -/
def fetchEntry (req : Request) (apiKey : Option String) (store : Store)
    (now : Nat) (upstream : UpstreamResult) : Result :=
  if req.method == "OPTIONS" then
    { resp := WorkerB.handleOptions req, store := store, call := none, log := none }
  else handleRequest req apiKey store now upstream

end WorkerC

/-- A sequence of `isRateLimited` invocations for one key, at the given times:
collects the limited flags and threads the store. -/
def runSeqC (store : WorkerC.Store) (key : String) :
    List Nat → List Bool × WorkerC.Store
  | [] => ([], store)
  | t :: ts =>
    let r := WorkerC.isRateLimited store key t
    let rest := runSeqC r.2 key ts
    (r.1 :: rest.1, rest.2)

/-- C1: for every inbound non-OPTIONS request whose `Origin` header is present
but not a member of the static allow-list, both `handleRequest` variants
(`src/cloudflare-worker.js` and `src/unnamed/part_000`) return a 403 response
with no `Access-Control-Allow-Origin` header (in fact with no CORS headers at
all), the rate-limit store is left unchanged, and no upstream call is issued —
so neither the rate limiter nor the endpoint filter nor the forwarder runs. -/
theorem claim_C1_origin_gate_rejects (k : String) (kB : Option String)
    (req : Request) (store : WorkerA.Store) (now : Nat)
    (uA uB : UpstreamResult) (o : String)
    (hk : k ≠ "")
    (hm : req.method ≠ "OPTIONS")
    (ho : req.origin = some o) (hno : o ≠ "")
    (hA : o ∉ WorkerA.ALLOWED_ORIGINS)
    (hB : o ∉ WorkerB.ALLOWED_ORIGINS) :
    WorkerA.handleRequest (some k) req store now uA =
      { resp := { status := 403, body := some "Forbidden",
                  headers := { contentType := some "text/plain" } },
        store := store, call := none }
    ∧ WorkerB.fetchEntry req kB uB =
      { resp := { status := 403, body := some "Forbidden", headers := {} },
        call := none } := by
  constructor
  · simp [WorkerA.handleRequest, isTruthy, ho, hk, hm, hno, hA]
  · simp [WorkerB.fetchEntry, WorkerB.handleRequest, WorkerB.getCorsHeaders,
      isTruthy, ho, hm, hno, hB]

/-- Witness for C1 at a concrete disallowed origin. -/
theorem claim_C1_witness :
    WorkerA.handleRequest (some "KEY")
      { method := "GET", path := "/api/epochs/latest",
        origin := some "https://evil.example", cfIP := some "1.2.3.4",
        bodyBytes := [], bodyText := "" } [] 0
      (.ok { status := 200, body := "ok", contentType := none }) =
      { resp := { status := 403, body := some "Forbidden",
                  headers := { contentType := some "text/plain" } },
        store := [], call := none }
    ∧ WorkerB.fetchEntry
      { method := "GET", path := "/epochs/latest/parameters",
        origin := some "https://evil.example", cfIP := some "1.2.3.4",
        bodyBytes := [], bodyText := "" } (some "KEY")
      (.ok { status := 200, body := "ok", contentType := none }) =
      { resp := { status := 403, body := some "Forbidden", headers := {} },
        call := none } := by
  have h := claim_C1_origin_gate_rejects "KEY" (some "KEY")
    { method := "GET", path := "/api/epochs/latest",
      origin := some "https://evil.example", cfIP := some "1.2.3.4",
      bodyBytes := [], bodyText := "" } [] 0
    (.ok { status := 200, body := "ok", contentType := none })
    (.ok { status := 200, body := "ok", contentType := none })
    "https://evil.example" (by decide) (by decide) rfl (by decide) (by decide) (by decide)
  refine ⟨h.1, ?_⟩
  have h2 := claim_C1_origin_gate_rejects "KEY" (some "KEY")
    { method := "GET", path := "/epochs/latest/parameters",
      origin := some "https://evil.example", cfIP := some "1.2.3.4",
      bodyBytes := [], bodyText := "" } [] 0
    (.ok { status := 200, body := "ok", contentType := none })
    (.ok { status := 200, body := "ok", contentType := none })
    "https://evil.example" (by decide) (by decide) rfl (by decide) (by decide) (by decide)
  exact h2.2

/-- C10: in the worker variant of `src/cloudflare-worker.js`, a non-OPTIONS
request with no `Origin` header passes the Origin Gate and proceeds through
the pipeline — observably, the rate limiter runs (the resulting store is
exactly the one `checkRateLimit` produces) — and whatever response is
produced carries no `Access-Control-Allow-Origin` header. -/
theorem claim_C10_absent_origin_passes (k : String) (req : Request)
    (store : WorkerA.Store) (now : Nat) (u : UpstreamResult)
    (hk : k ≠ "")
    (hm : req.method ≠ "OPTIONS")
    (ho : req.origin = none) :
    (WorkerA.handleRequest (some k) req store now u).store =
      (WorkerA.checkRateLimit store req.cfIP now).2
    ∧ (WorkerA.handleRequest (some k) req store now u).resp.headers.acao = none := by
  simp only [WorkerA.handleRequest, isTruthy, ho, hk, hm]
  simp only [Bool.not_false, Bool.false_and, Bool.not_true, if_false, if_true,
    Bool.not_eq_true']
  by_cases hrl : (WorkerA.checkRateLimit store req.cfIP now).1
  · by_cases hep : WorkerA.isAllowedEndpoint (replaceFirst req.path "/api/")
    · cases u <;> simp [hrl, hep, hk, hm, WorkerA.getCORSHeaders, isTruthy, ho]
    · simp [hrl, hep, hk, hm, WorkerA.getCORSHeaders, isTruthy, ho]
  · simp [hrl, hk, hm, WorkerA.getCORSHeaders, isTruthy, ho]

/-- Witness for C10 at a concrete request without an `Origin` header. -/
theorem claim_C10_witness :
    (WorkerA.handleRequest (some "KEY")
      { method := "GET", path := "/api/epochs/latest", origin := none,
        cfIP := some "1.2.3.4", bodyBytes := [], bodyText := "" } [] 0
      (.ok { status := 200, body := "ok", contentType := none })).store =
      (WorkerA.checkRateLimit [] (some "1.2.3.4") 0).2
    ∧ (WorkerA.handleRequest (some "KEY")
      { method := "GET", path := "/api/epochs/latest", origin := none,
        cfIP := some "1.2.3.4", bodyBytes := [], bodyText := "" } [] 0
      (.ok { status := 200, body := "ok", contentType := none })).resp.headers.acao = none :=
  claim_C10_absent_origin_passes "KEY"
    { method := "GET", path := "/api/epochs/latest", origin := none,
      cfIP := some "1.2.3.4", bodyBytes := [], bodyText := "" } [] 0
    (.ok { status := 200, body := "ok", contentType := none })
    (by decide) (by decide) rfl

/-- C5: for every allowed GET request (allowed origin, not rate-limited,
whitelisted path), both variants issue the upstream call to the fixed base URL
concatenated with the validated path, with the credential attached only as the
`project_id` header (the call's URL, method and body do not involve it), and
the client-visible response is identical for any two credential values given
the same upstream reply — the credential never reaches the response. -/
theorem claim_C5_forwarding_credential (k1 k2 : String) (kB1 kB2 : Option String)
    (reqA reqB : Request) (store : WorkerA.Store) (now : Nat)
    (uA uB : UpstreamResult) (oA oB : String)
    (hk1 : k1 ≠ "") (hk2 : k2 ≠ "")
    (hmA : reqA.method = "GET") (hmB : reqB.method = "GET")
    (hoA : reqA.origin = some oA) (hoAmem : oA ∈ WorkerA.ALLOWED_ORIGINS)
    (hoB : reqB.origin = some oB) (hoBmem : oB ∈ WorkerB.ALLOWED_ORIGINS)
    (hoB0 : oB ≠ "")
    (hrl : (WorkerA.checkRateLimit store reqA.cfIP now).1 = true)
    (hep : WorkerA.isAllowedEndpoint (replaceFirst reqA.path "/api/") = true)
    (hpB : WorkerB.isAllowedPath reqB.path = true) :
    ((WorkerA.handleRequest (some k1) reqA store now uA).call =
      some { url := BLOCKFROST_BASE_URL ++ "/" ++ replaceFirst reqA.path "/api/",
             method := "GET", projectId := k1,
             contentType := "application/json", bodyText := none }
     ∧ (WorkerA.handleRequest (some k1) reqA store now uA).resp =
       (WorkerA.handleRequest (some k2) reqA store now uA).resp)
    ∧ ((WorkerB.handleRequest reqB kB1 uB).call =
       some { url := BLOCKFROST_BASE_URL ++ reqB.path,
              method := "GET", projectId := kB1,
              contentType := "application/json", bodyBytes := none }
      ∧ (WorkerB.handleRequest reqB kB1 uB).resp =
        (WorkerB.handleRequest reqB kB2 uB).resp) := by
  refine ⟨⟨?_, ?_⟩, ⟨?_, ?_⟩⟩
  · cases uA <;>
      simp [WorkerA.handleRequest, isTruthy, hk1, hmA, hoA, hoAmem, hrl, hep]
  · cases uA <;>
      simp [WorkerA.handleRequest, isTruthy, hk1, hk2, hmA, hoA, hoAmem, hrl, hep]
  · cases uB <;>
      simp [WorkerB.handleRequest, WorkerB.getCorsHeaders, isTruthy,
        hmB, hoB, hoBmem, hoB0, hpB]
  · cases uB <;>
      simp [WorkerB.handleRequest, WorkerB.getCorsHeaders, isTruthy,
        hmB, hoB, hoBmem, hoB0, hpB]

/-- Witness for C5 at concrete allowed GET requests and two credentials. -/
theorem claim_C5_witness :
    ((WorkerA.handleRequest (some "KEY1")
        { method := "GET", path := "/api/epochs/latest",
          origin := some "https://gs1973.github.io", cfIP := some "1.2.3.4",
          bodyBytes := [], bodyText := "" } [] 0
        (.ok { status := 200, body := "ok", contentType := none })).call =
      some { url := BLOCKFROST_BASE_URL ++ "/" ++ replaceFirst "/api/epochs/latest" "/api/",
             method := "GET", projectId := "KEY1",
             contentType := "application/json", bodyText := none }
     ∧ (WorkerA.handleRequest (some "KEY1")
        { method := "GET", path := "/api/epochs/latest",
          origin := some "https://gs1973.github.io", cfIP := some "1.2.3.4",
          bodyBytes := [], bodyText := "" } [] 0
        (.ok { status := 200, body := "ok", contentType := none })).resp =
       (WorkerA.handleRequest (some "KEY2")
        { method := "GET", path := "/api/epochs/latest",
          origin := some "https://gs1973.github.io", cfIP := some "1.2.3.4",
          bodyBytes := [], bodyText := "" } [] 0
        (.ok { status := 200, body := "ok", contentType := none })).resp)
    ∧ ((WorkerB.handleRequest
        { method := "GET", path := "/epochs/latest/parameters",
          origin := some "https://gs1973.github.io", cfIP := some "1.2.3.4",
          bodyBytes := [], bodyText := "" } (some "KEY1")
        (.ok { status := 200, body := "ok", contentType := none })).call =
       some { url := BLOCKFROST_BASE_URL ++ "/epochs/latest/parameters",
              method := "GET", projectId := some "KEY1",
              contentType := "application/json", bodyBytes := none }
      ∧ (WorkerB.handleRequest
        { method := "GET", path := "/epochs/latest/parameters",
          origin := some "https://gs1973.github.io", cfIP := some "1.2.3.4",
          bodyBytes := [], bodyText := "" } (some "KEY1")
        (.ok { status := 200, body := "ok", contentType := none })).resp =
        (WorkerB.handleRequest
        { method := "GET", path := "/epochs/latest/parameters",
          origin := some "https://gs1973.github.io", cfIP := some "1.2.3.4",
          bodyBytes := [], bodyText := "" } (some "KEY2")
        (.ok { status := 200, body := "ok", contentType := none })).resp) :=
  claim_C5_forwarding_credential "KEY1" "KEY2" (some "KEY1") (some "KEY2")
    { method := "GET", path := "/api/epochs/latest",
      origin := some "https://gs1973.github.io", cfIP := some "1.2.3.4",
      bodyBytes := [], bodyText := "" }
    { method := "GET", path := "/epochs/latest/parameters",
      origin := some "https://gs1973.github.io", cfIP := some "1.2.3.4",
      bodyBytes := [], bodyText := "" } [] 0
    (.ok { status := 200, body := "ok", contentType := none })
    (.ok { status := 200, body := "ok", contentType := none })
    "https://gs1973.github.io" "https://gs1973.github.io"
    (by decide) (by decide) rfl rfl rfl (by decide) rfl (by decide) (by decide)
    (by decide) (by decide) (by decide)

/-- C6 counterexample: in `src/cloudflare-worker.js` a POST to the whitelisted
submission endpoint `txs` is forwarded with `Content-Type: application/json`,
not the binary transaction media type `application/cbor`, and with the
request's text rather than its raw bytes. -/
theorem claim_C6_counterexample :
    (WorkerA.handleRequest (some "KEY")
      { method := "POST", path := "/api/txs",
        origin := some "https://gs1973.github.io", cfIP := some "1.2.3.4",
        bodyBytes := [0xde, 0xad], bodyText := "txbody" } [] 0
      (.ok { status := 200, body := "ok", contentType := none })).call =
      some { url := BLOCKFROST_BASE_URL ++ "/txs", method := "POST",
             projectId := "KEY", contentType := "application/json",
             bodyText := some "txbody" }
    ∧ ("application/json" : String) ≠ "application/cbor" := by
  constructor
  · decide
  · decide

/-- C6 (amended): a POST to `/tx/submit` reaching the forwarder of the module
worker `src/unnamed/part_000` is sent upstream with
`Content-Type: application/cbor` and with the raw request bytes unchanged;
in `src/cloudflare-worker.js`, however, a POST to its submission endpoint is
sent upstream with `Content-Type: application/json` and with the request's
text, not its bytes. -/
theorem claim_C6_cbor_forwarding_amended (k : String) (kB : Option String)
    (reqA reqB : Request) (store : WorkerA.Store) (now : Nat)
    (uA uB : UpstreamResult) (oA oB : String)
    (hk : k ≠ "")
    (hmA : reqA.method = "POST") (hmB : reqB.method = "POST")
    (hpB : reqB.path = "/tx/submit")
    (hoA : reqA.origin = some oA) (hoAmem : oA ∈ WorkerA.ALLOWED_ORIGINS)
    (hoB : reqB.origin = some oB) (hoBmem : oB ∈ WorkerB.ALLOWED_ORIGINS)
    (hoB0 : oB ≠ "")
    (hrl : (WorkerA.checkRateLimit store reqA.cfIP now).1 = true)
    (hep : WorkerA.isAllowedEndpoint (replaceFirst reqA.path "/api/") = true) :
    (WorkerB.handleRequest reqB kB uB).call =
      some { url := BLOCKFROST_BASE_URL ++ "/tx/submit", method := "POST",
             projectId := kB, contentType := "application/cbor",
             bodyBytes := some reqB.bodyBytes }
    ∧ (WorkerA.handleRequest (some k) reqA store now uA).call =
      some { url := BLOCKFROST_BASE_URL ++ "/" ++ replaceFirst reqA.path "/api/",
             method := "POST", projectId := k,
             contentType := "application/json", bodyText := some reqA.bodyText } := by
  have hsub : WorkerB.isAllowedPath "/tx/submit" = true := by decide
  constructor
  · cases uB <;>
      simp [WorkerB.handleRequest, WorkerB.getCorsHeaders, isTruthy,
        hmB, hpB, hoB, hoBmem, hoB0, hsub]
  · cases uA <;>
      simp [WorkerA.handleRequest, isTruthy, hk, hmA, hoA, hoAmem, hrl, hep]

/-- Witness for C6 (amended) at concrete POST submissions. -/
theorem claim_C6_witness :
    (WorkerB.handleRequest
      { method := "POST", path := "/tx/submit",
        origin := some "https://gs1973.github.io", cfIP := some "1.2.3.4",
        bodyBytes := [0xde, 0xad], bodyText := "txbody" } (some "KEY")
      (.ok { status := 200, body := "ok", contentType := none })).call =
      some { url := BLOCKFROST_BASE_URL ++ "/tx/submit", method := "POST",
             projectId := some "KEY", contentType := "application/cbor",
             bodyBytes := some [0xde, 0xad] }
    ∧ (WorkerA.handleRequest (some "KEY")
      { method := "POST", path := "/api/txs",
        origin := some "https://gs1973.github.io", cfIP := some "1.2.3.4",
        bodyBytes := [0xde, 0xad], bodyText := "txbody" } [] 0
      (.ok { status := 200, body := "ok", contentType := none })).call =
      some { url := BLOCKFROST_BASE_URL ++ "/" ++ replaceFirst "/api/txs" "/api/",
             method := "POST", projectId := "KEY",
             contentType := "application/json", bodyText := some "txbody" } :=
  claim_C6_cbor_forwarding_amended "KEY" (some "KEY")
    { method := "POST", path := "/api/txs",
      origin := some "https://gs1973.github.io", cfIP := some "1.2.3.4",
      bodyBytes := [0xde, 0xad], bodyText := "txbody" }
    { method := "POST", path := "/tx/submit",
      origin := some "https://gs1973.github.io", cfIP := some "1.2.3.4",
      bodyBytes := [0xde, 0xad], bodyText := "txbody" } [] 0
    (.ok { status := 200, body := "ok", contentType := none })
    (.ok { status := 200, body := "ok", contentType := none })
    "https://gs1973.github.io" "https://gs1973.github.io"
    (by decide) rfl rfl rfl rfl (by decide) rfl (by decide) (by decide)
    (by decide) (by decide)

/-- C4 counterexample: `src/cloudflare-worker.js` answers a non-whitelisted
path with status 403 but with the plain-text body `Endpoint not allowed`,
not the JSON object the claim requires. -/
theorem claim_C4_counterexample :
    (WorkerA.handleRequest (some "KEY")
      { method := "GET", path := "/api/evil",
        origin := some "https://gs1973.github.io", cfIP := some "1.2.3.4",
        bodyBytes := [], bodyText := "" } [] 0
      (.ok { status := 200, body := "ok", contentType := none })).resp.status = 403
    ∧ (WorkerA.handleRequest (some "KEY")
      { method := "GET", path := "/api/evil",
        origin := some "https://gs1973.github.io", cfIP := some "1.2.3.4",
        bodyBytes := [], bodyText := "" } [] 0
      (.ok { status := 200, body := "ok", contentType := none })).resp.body =
      some "Endpoint not allowed"
    ∧ (WorkerA.handleRequest (some "KEY")
      { method := "GET", path := "/api/evil",
        origin := some "https://gs1973.github.io", cfIP := some "1.2.3.4",
        bodyBytes := [], bodyText := "" } [] 0
      (.ok { status := 200, body := "ok", contentType := none })).resp.body ≠
      some "\x7b\"error\":\"Endpoint not allowed\"\x7d" := by
  refine ⟨by decide, by decide, by decide⟩

/-- C4 (amended): a request from an allowed origin (and, in
`src/cloudflare-worker.js`, not rate-limited) whose path matches no
whitelisted pattern is answered with status 403 regardless of the method and
without an upstream call; the module worker's body is exactly the JSON
object `\x7b"error":"Endpoint not allowed"\x7d`, while
`src/cloudflare-worker.js` answers with the plain-text body
`Endpoint not allowed`. -/
theorem claim_C4_endpoint_rejection_amended (k : String) (kB : Option String)
    (reqA reqB : Request) (store : WorkerA.Store) (now : Nat)
    (uA uB : UpstreamResult) (oA oB : String)
    (hk : k ≠ "")
    (hmA : reqA.method ≠ "OPTIONS") (hmB : reqB.method ≠ "OPTIONS")
    (hoA : reqA.origin = some oA) (hoAmem : oA ∈ WorkerA.ALLOWED_ORIGINS)
    (hoB : reqB.origin = some oB) (hoBmem : oB ∈ WorkerB.ALLOWED_ORIGINS)
    (hoB0 : oB ≠ "")
    (hrl : (WorkerA.checkRateLimit store reqA.cfIP now).1 = true)
    (hep : WorkerA.isAllowedEndpoint (replaceFirst reqA.path "/api/") = false)
    (hpB : WorkerB.isAllowedPath reqB.path = false) :
    ((WorkerB.fetchEntry reqB kB uB).resp.status = 403
     ∧ (WorkerB.fetchEntry reqB kB uB).resp.body =
       some WorkerB.endpointNotAllowedBody
     ∧ (WorkerB.fetchEntry reqB kB uB).call = none)
    ∧ ((WorkerA.handleRequest (some k) reqA store now uA).resp.status = 403
     ∧ (WorkerA.handleRequest (some k) reqA store now uA).resp.body =
       some "Endpoint not allowed"
     ∧ (WorkerA.handleRequest (some k) reqA store now uA).call = none) := by
  constructor
  · refine ⟨?_, ?_, ?_⟩ <;>
      simp [WorkerB.fetchEntry, WorkerB.handleRequest, WorkerB.getCorsHeaders,
        isTruthy, hmB, hoB, hoBmem, hoB0, hpB]
  · refine ⟨?_, ?_, ?_⟩ <;>
      simp [WorkerA.handleRequest, isTruthy, hk, hmA, hoA, hoAmem, hrl, hep]

/-- Witness for C4 (amended) at concrete non-whitelisted paths. -/
theorem claim_C4_witness :
    ((WorkerB.fetchEntry
        { method := "DELETE", path := "/evil",
          origin := some "https://gs1973.github.io", cfIP := some "1.2.3.4",
          bodyBytes := [], bodyText := "" } (some "KEY")
        (.ok { status := 200, body := "ok", contentType := none })).resp.status = 403
     ∧ (WorkerB.fetchEntry
        { method := "DELETE", path := "/evil",
          origin := some "https://gs1973.github.io", cfIP := some "1.2.3.4",
          bodyBytes := [], bodyText := "" } (some "KEY")
        (.ok { status := 200, body := "ok", contentType := none })).resp.body =
       some WorkerB.endpointNotAllowedBody
     ∧ (WorkerB.fetchEntry
        { method := "DELETE", path := "/evil",
          origin := some "https://gs1973.github.io", cfIP := some "1.2.3.4",
          bodyBytes := [], bodyText := "" } (some "KEY")
        (.ok { status := 200, body := "ok", contentType := none })).call = none)
    ∧ ((WorkerA.handleRequest (some "KEY")
        { method := "POST", path := "/api/evil",
          origin := some "https://gs1973.github.io", cfIP := some "1.2.3.4",
          bodyBytes := [], bodyText := "" } [] 0
        (.ok { status := 200, body := "ok", contentType := none })).resp.status = 403
     ∧ (WorkerA.handleRequest (some "KEY")
        { method := "POST", path := "/api/evil",
          origin := some "https://gs1973.github.io", cfIP := some "1.2.3.4",
          bodyBytes := [], bodyText := "" } [] 0
        (.ok { status := 200, body := "ok", contentType := none })).resp.body =
       some "Endpoint not allowed"
     ∧ (WorkerA.handleRequest (some "KEY")
        { method := "POST", path := "/api/evil",
          origin := some "https://gs1973.github.io", cfIP := some "1.2.3.4",
          bodyBytes := [], bodyText := "" } [] 0
        (.ok { status := 200, body := "ok", contentType := none })).call = none) :=
  claim_C4_endpoint_rejection_amended "KEY" (some "KEY")
    { method := "POST", path := "/api/evil",
      origin := some "https://gs1973.github.io", cfIP := some "1.2.3.4",
      bodyBytes := [], bodyText := "" }
    { method := "DELETE", path := "/evil",
      origin := some "https://gs1973.github.io", cfIP := some "1.2.3.4",
      bodyBytes := [], bodyText := "" } [] 0
    (.ok { status := 200, body := "ok", contentType := none })
    (.ok { status := 200, body := "ok", contentType := none })
    "https://gs1973.github.io" "https://gs1973.github.io"
    (by decide) (by decide) (by decide) rfl (by decide) rfl (by decide)
    (by decide) (by decide) (by decide) (by decide)

/-- C3 counterexample: the filter of `src/unnamed/part_000` accepts a GET to
the POST-only submission endpoint `/tx/submit` — the request reaches the
upstream forwarder (with method GET) instead of being rejected. -/
theorem claim_C3_counterexample :
    (WorkerB.fetchEntry
      { method := "GET", path := "/tx/submit",
        origin := some "https://gs1973.github.io", cfIP := some "1.2.3.4",
        bodyBytes := [], bodyText := "" } (some "KEY")
      (.ok { status := 200, body := "ok", contentType := none })).call =
      some { url := BLOCKFROST_BASE_URL ++ "/tx/submit", method := "GET",
             projectId := some "KEY", contentType := "application/json",
             bodyBytes := none } := by
  decide

/-- C3 (amended): in both variants the endpoint filter consults only the
path: given an allowed origin (and, in `src/cloudflare-worker.js`, a passing
rate limit), the pipeline stops without an upstream call exactly when the
path matches no whitelist pattern, whatever the (non-OPTIONS) HTTP method
is; the method is never part of the filter decision. -/
theorem claim_C3_filter_ignores_method_amended (k : String) (kB : Option String)
    (reqA reqB : Request) (store : WorkerA.Store) (now : Nat)
    (uA uB : UpstreamResult) (oA oB : String)
    (hk : k ≠ "")
    (hmA : reqA.method ≠ "OPTIONS") (hmB : reqB.method ≠ "OPTIONS")
    (hoA : reqA.origin = some oA) (hoAmem : oA ∈ WorkerA.ALLOWED_ORIGINS)
    (hoB : reqB.origin = some oB) (hoBmem : oB ∈ WorkerB.ALLOWED_ORIGINS)
    (hoB0 : oB ≠ "")
    (hrl : (WorkerA.checkRateLimit store reqA.cfIP now).1 = true) :
    ((WorkerB.fetchEntry reqB kB uB).call = none
       ↔ WorkerB.isAllowedPath reqB.path = false)
    ∧ ((WorkerA.handleRequest (some k) reqA store now uA).call = none
       ↔ WorkerA.isAllowedEndpoint (replaceFirst reqA.path "/api/") = false) := by
  constructor
  · by_cases hp : WorkerB.isAllowedPath reqB.path
    · cases uB <;>
        simp [WorkerB.fetchEntry, WorkerB.handleRequest, WorkerB.getCorsHeaders,
          isTruthy, hmB, hoB, hoBmem, hoB0, hp]
    · simp only [Bool.not_eq_true] at hp
      simp [WorkerB.fetchEntry, WorkerB.handleRequest, WorkerB.getCorsHeaders,
        isTruthy, hmB, hoB, hoBmem, hoB0, hp]
  · by_cases hp : WorkerA.isAllowedEndpoint (replaceFirst reqA.path "/api/")
    · cases uA <;>
        simp [WorkerA.handleRequest, isTruthy, hk, hmA, hoA, hoAmem, hrl, hp]
    · simp only [Bool.not_eq_true] at hp
      simp [WorkerA.handleRequest, isTruthy, hk, hmA, hoA, hoAmem, hrl, hp]

/-- Witness for C3 (amended): a GET to the submission endpoint. -/
theorem claim_C3_witness :
    ((WorkerB.fetchEntry
        { method := "GET", path := "/tx/submit",
          origin := some "https://gs1973.github.io", cfIP := some "1.2.3.4",
          bodyBytes := [], bodyText := "" } (some "KEY")
        (.ok { status := 200, body := "ok", contentType := none })).call = none
       ↔ WorkerB.isAllowedPath "/tx/submit" = false)
    ∧ ((WorkerA.handleRequest (some "KEY")
        { method := "POST", path := "/api/epochs/latest",
          origin := some "https://gs1973.github.io", cfIP := some "1.2.3.4",
          bodyBytes := [], bodyText := "" } [] 0
        (.ok { status := 200, body := "ok", contentType := none })).call = none
       ↔ WorkerA.isAllowedEndpoint (replaceFirst "/api/epochs/latest" "/api/") = false) :=
  claim_C3_filter_ignores_method_amended "KEY" (some "KEY")
    { method := "POST", path := "/api/epochs/latest",
      origin := some "https://gs1973.github.io", cfIP := some "1.2.3.4",
      bodyBytes := [], bodyText := "" }
    { method := "GET", path := "/tx/submit",
      origin := some "https://gs1973.github.io", cfIP := some "1.2.3.4",
      bodyBytes := [], bodyText := "" } [] 0
    (.ok { status := 200, body := "ok", contentType := none })
    (.ok { status := 200, body := "ok", contentType := none })
    "https://gs1973.github.io" "https://gs1973.github.io"
    (by decide) (by decide) (by decide) rfl (by decide) rfl (by decide)
    (by decide) (by decide)

/-- C8 counterexample: an OPTIONS request with no `Origin` header — hence
with no origin that "is allowed" — is answered by `src/cloudflare-worker.js`
with status 204, not the 403 the claim requires for that case. -/
theorem claim_C8_counterexample :
    (WorkerA.handleRequest (some "KEY")
      { method := "OPTIONS", path := "/api/epochs/latest", origin := none,
        cfIP := some "1.2.3.4", bodyBytes := [], bodyText := "" } [] 0
      (.ok { status := 200, body := "ok", contentType := none })).resp.status = 204
    ∧ (WorkerA.handleRequest (some "KEY")
      { method := "OPTIONS", path := "/api/epochs/latest", origin := none,
        cfIP := some "1.2.3.4", bodyBytes := [], bodyText := "" } [] 0
      (.ok { status := 200, body := "ok", contentType := none })).resp.status ≠ 403 := by
  refine ⟨by decide, by decide⟩

/-- C8 (amended): both variants answer OPTIONS before the rate limiter and
endpoint filter — the rate-limit map is unchanged, no upstream call is made,
and the response does not depend on the request path.  With a present allowed
`Origin` the response is 204 with `Access-Control-Allow-Origin` echoing it;
with a present disallowed `Origin` it is 403 with no headers at all.  With no
`Origin` header the module worker `src/unnamed/part_000` answers 403, but
`src/cloudflare-worker.js` answers 204 (without an
`Access-Control-Allow-Origin` header) rather than 403. -/
theorem claim_C8_preflight_amended (k : String) (kB : Option String)
    (req : Request) (store : WorkerA.Store) (now : Nat) (uA uB : UpstreamResult)
    (hk : k ≠ "") (hm : req.method = "OPTIONS") :
    ((WorkerA.handleRequest (some k) req store now uA).store = store
     ∧ (WorkerA.handleRequest (some k) req store now uA).call = none
     ∧ (WorkerB.fetchEntry req kB uB).call = none)
    ∧ (∀ p1 p2 : String,
        (WorkerA.handleRequest (some k) { req with path := p1 } store now uA).resp =
        (WorkerA.handleRequest (some k) { req with path := p2 } store now uA).resp
        ∧ (WorkerB.fetchEntry { req with path := p1 } kB uB).resp =
          (WorkerB.fetchEntry { req with path := p2 } kB uB).resp)
    ∧ (req.origin = none →
        (WorkerA.handleRequest (some k) req store now uA).resp.status = 204
        ∧ (WorkerA.handleRequest (some k) req store now uA).resp.headers.acao = none
        ∧ (WorkerB.fetchEntry req kB uB).resp.status = 403)
    ∧ (∀ o, req.origin = some o → o ≠ "" → o ∈ WorkerA.ALLOWED_ORIGINS →
        (WorkerA.handleRequest (some k) req store now uA).resp.status = 204
        ∧ (WorkerA.handleRequest (some k) req store now uA).resp.headers.acao = some o)
    ∧ (∀ o, req.origin = some o → o ≠ "" → o ∉ WorkerA.ALLOWED_ORIGINS →
        (WorkerA.handleRequest (some k) req store now uA).resp =
          { status := 403, body := some "Forbidden", headers := {} })
    ∧ (∀ o, req.origin = some o → o ≠ "" → o ∈ WorkerB.ALLOWED_ORIGINS →
        (WorkerB.fetchEntry req kB uB).resp.status = 204
        ∧ (WorkerB.fetchEntry req kB uB).resp.headers.acao = some o)
    ∧ (∀ o, req.origin = some o → o ∉ WorkerB.ALLOWED_ORIGINS →
        (WorkerB.fetchEntry req kB uB).resp =
          { status := 403, body := some "Forbidden", headers := {} }) := by
  refine ⟨⟨?_, ?_, ?_⟩, ?_, ?_, ?_, ?_, ?_, ?_⟩
  · simp [WorkerA.handleRequest, isTruthy, hk, hm]
  · simp [WorkerA.handleRequest, isTruthy, hk, hm]
  · simp [WorkerB.fetchEntry, hm]
  · intro p1 p2
    constructor
    · simp [WorkerA.handleRequest, isTruthy, hk, hm, WorkerA.handleCORS]
    · simp [WorkerB.fetchEntry, hm, WorkerB.handleOptions, WorkerB.getCorsHeaders]
  · intro ho
    refine ⟨?_, ?_, ?_⟩
    · simp [WorkerA.handleRequest, isTruthy, hk, hm, WorkerA.handleCORS, ho]
    · simp [WorkerA.handleRequest, isTruthy, hk, hm, WorkerA.handleCORS, ho,
        WorkerA.getCORSHeaders]
    · simp [WorkerB.fetchEntry, hm, WorkerB.handleOptions, WorkerB.getCorsHeaders,
        isTruthy, ho]
  · intro o ho ho0 homem
    constructor
    · simp [WorkerA.handleRequest, isTruthy, hk, hm, WorkerA.handleCORS, ho,
        ho0, homem]
    · simp [WorkerA.handleRequest, isTruthy, hk, hm, WorkerA.handleCORS, ho,
        ho0, homem, WorkerA.getCORSHeaders]
  · intro o ho ho0 homem
    simp [WorkerA.handleRequest, isTruthy, hk, hm, WorkerA.handleCORS, ho,
      ho0, homem]
  · intro o ho ho0 homem
    constructor
    · simp [WorkerB.fetchEntry, hm, WorkerB.handleOptions, WorkerB.getCorsHeaders,
        isTruthy, ho, ho0, homem]
    · simp [WorkerB.fetchEntry, hm, WorkerB.handleOptions, WorkerB.getCorsHeaders,
        isTruthy, ho, ho0, homem]
  · intro o ho homem
    simp [WorkerB.fetchEntry, hm, WorkerB.handleOptions, WorkerB.getCorsHeaders,
      isTruthy, ho, homem]

/-- Witness for C8 (amended) at a concrete OPTIONS request. -/
theorem claim_C8_witness :
    ((WorkerA.handleRequest (some "KEY")
        { method := "OPTIONS", path := "/api/x",
          origin := some "https://gs1973.github.io", cfIP := some "1.2.3.4",
          bodyBytes := [], bodyText := "" } [] 0
        (.ok { status := 200, body := "ok", contentType := none })).store = []
      ∧ (WorkerA.handleRequest (some "KEY")
        { method := "OPTIONS", path := "/api/x",
          origin := some "https://gs1973.github.io", cfIP := some "1.2.3.4",
          bodyBytes := [], bodyText := "" } [] 0
        (.ok { status := 200, body := "ok", contentType := none })).call = none
      ∧ (WorkerB.fetchEntry
        { method := "OPTIONS", path := "/api/x",
          origin := some "https://gs1973.github.io", cfIP := some "1.2.3.4",
          bodyBytes := [], bodyText := "" } (some "KEY")
        (.ok { status := 200, body := "ok", contentType := none })).call = none)
    ∧ (∀ p1 p2 : String,
        (WorkerA.handleRequest (some "KEY")
          { method := "OPTIONS", path := p1,
            origin := some "https://gs1973.github.io", cfIP := some "1.2.3.4",
            bodyBytes := [], bodyText := "" } [] 0
          (.ok { status := 200, body := "ok", contentType := none })).resp =
        (WorkerA.handleRequest (some "KEY")
          { method := "OPTIONS", path := p2,
            origin := some "https://gs1973.github.io", cfIP := some "1.2.3.4",
            bodyBytes := [], bodyText := "" } [] 0
          (.ok { status := 200, body := "ok", contentType := none })).resp
        ∧ (WorkerB.fetchEntry
          { method := "OPTIONS", path := p1,
            origin := some "https://gs1973.github.io", cfIP := some "1.2.3.4",
            bodyBytes := [], bodyText := "" } (some "KEY")
          (.ok { status := 200, body := "ok", contentType := none })).resp =
          (WorkerB.fetchEntry
          { method := "OPTIONS", path := p2,
            origin := some "https://gs1973.github.io", cfIP := some "1.2.3.4",
            bodyBytes := [], bodyText := "" } (some "KEY")
          (.ok { status := 200, body := "ok", contentType := none })).resp)
    ∧ ((some "https://gs1973.github.io" : Option String) = none →
        (WorkerA.handleRequest (some "KEY")
          { method := "OPTIONS", path := "/api/x",
            origin := some "https://gs1973.github.io", cfIP := some "1.2.3.4",
            bodyBytes := [], bodyText := "" } [] 0
          (.ok { status := 200, body := "ok", contentType := none })).resp.status = 204
        ∧ (WorkerA.handleRequest (some "KEY")
          { method := "OPTIONS", path := "/api/x",
            origin := some "https://gs1973.github.io", cfIP := some "1.2.3.4",
            bodyBytes := [], bodyText := "" } [] 0
          (.ok { status := 200, body := "ok", contentType := none })).resp.headers.acao = none
        ∧ (WorkerB.fetchEntry
          { method := "OPTIONS", path := "/api/x",
            origin := some "https://gs1973.github.io", cfIP := some "1.2.3.4",
            bodyBytes := [], bodyText := "" } (some "KEY")
          (.ok { status := 200, body := "ok", contentType := none })).resp.status = 403)
    ∧ (∀ o, (some "https://gs1973.github.io" : Option String) = some o → o ≠ "" →
        o ∈ WorkerA.ALLOWED_ORIGINS →
        (WorkerA.handleRequest (some "KEY")
          { method := "OPTIONS", path := "/api/x",
            origin := some "https://gs1973.github.io", cfIP := some "1.2.3.4",
            bodyBytes := [], bodyText := "" } [] 0
          (.ok { status := 200, body := "ok", contentType := none })).resp.status = 204
        ∧ (WorkerA.handleRequest (some "KEY")
          { method := "OPTIONS", path := "/api/x",
            origin := some "https://gs1973.github.io", cfIP := some "1.2.3.4",
            bodyBytes := [], bodyText := "" } [] 0
          (.ok { status := 200, body := "ok", contentType := none })).resp.headers.acao = some o)
    ∧ (∀ o, (some "https://gs1973.github.io" : Option String) = some o → o ≠ "" →
        o ∉ WorkerA.ALLOWED_ORIGINS →
        (WorkerA.handleRequest (some "KEY")
          { method := "OPTIONS", path := "/api/x",
            origin := some "https://gs1973.github.io", cfIP := some "1.2.3.4",
            bodyBytes := [], bodyText := "" } [] 0
          (.ok { status := 200, body := "ok", contentType := none })).resp =
          { status := 403, body := some "Forbidden", headers := {} })
    ∧ (∀ o, (some "https://gs1973.github.io" : Option String) = some o → o ≠ "" →
        o ∈ WorkerB.ALLOWED_ORIGINS →
        (WorkerB.fetchEntry
          { method := "OPTIONS", path := "/api/x",
            origin := some "https://gs1973.github.io", cfIP := some "1.2.3.4",
            bodyBytes := [], bodyText := "" } (some "KEY")
          (.ok { status := 200, body := "ok", contentType := none })).resp.status = 204
        ∧ (WorkerB.fetchEntry
          { method := "OPTIONS", path := "/api/x",
            origin := some "https://gs1973.github.io", cfIP := some "1.2.3.4",
            bodyBytes := [], bodyText := "" } (some "KEY")
          (.ok { status := 200, body := "ok", contentType := none })).resp.headers.acao = some o)
    ∧ (∀ o, (some "https://gs1973.github.io" : Option String) = some o →
        o ∉ WorkerB.ALLOWED_ORIGINS →
        (WorkerB.fetchEntry
          { method := "OPTIONS", path := "/api/x",
            origin := some "https://gs1973.github.io", cfIP := some "1.2.3.4",
            bodyBytes := [], bodyText := "" } (some "KEY")
          (.ok { status := 200, body := "ok", contentType := none })).resp =
          { status := 403, body := some "Forbidden", headers := {} }) :=
  claim_C8_preflight_amended "KEY" (some "KEY")
    { method := "OPTIONS", path := "/api/x",
      origin := some "https://gs1973.github.io", cfIP := some "1.2.3.4",
      bodyBytes := [], bodyText := "" } [] 0
    (.ok { status := 200, body := "ok", contentType := none })
    (.ok { status := 200, body := "ok", contentType := none })
    (by decide) rfl

/-- Looking up a key right after `Map.set` on that key yields the new record
(`src/cloudflare-worker.js` store). -/
theorem WorkerA.storeFindA_storeSet (s : WorkerA.Store) (k : Option String)
    (v : WorkerA.Record) : WorkerA.storeFind (WorkerA.storeSet s k v) k = some v := by
  simp [WorkerA.storeSet, WorkerA.storeFind]

/-- Looking up a key right after `Map.set` on that key yields the new record
(guide-worker store). -/
theorem WorkerC.storeFindC_storeSet (s : WorkerC.Store) (k : String)
    (v : WorkerC.Record) : WorkerC.storeFind (WorkerC.storeSet s k v) k = some v := by
  simp [WorkerC.storeSet, WorkerC.storeFind]

/-- C9 counterexample: once the guide worker's `isRateLimited` record has
reached `MAX_REQUESTS`, a further invocation inside the window leaves the
stored count unchanged at 30 instead of incrementing it to 31 as the claimed
invariant requires (the current time 10 does not exceed
`windowStart + windowDuration`). -/
theorem claim_C9_counterexample :
    WorkerC.storeFind
      (WorkerC.isRateLimited [("203.0.113.5", { windowStart := 0, count := 30 })]
        "203.0.113.5" 10).2 "203.0.113.5" =
      some { windowStart := 0, count := 30 }
    ∧ ¬(10 : Nat) > 0 + WorkerC.WINDOW_MS
    ∧ (30 : Nat) ≠ 30 + 1 := by
  refine ⟨by decide, by decide, by decide⟩

/-- C9 (amended): on a rate-limiter invocation the stored record is reset to
count 1 (with a fresh window start) whenever the key is unseen or the current
time is past the window end; otherwise `checkRateLimit` of
`src/cloudflare-worker.js` always increments the count by one, while
`isRateLimited` of the guide worker increments only while the count is below
`MAX_REQUESTS` and leaves the record unchanged once the limit is reached. -/
theorem claim_C9_record_invariant_amended
    (storeA1 storeA2 : WorkerA.Store) (storeC1 storeC2 : WorkerC.Store)
    (ip : Option String) (key : String) (now c rt ws cc : Nat)
    (hA1 : WorkerA.storeFind storeA1 ip = none)
    (hA2 : WorkerA.storeFind storeA2 ip = some { count := c, resetTime := rt })
    (hC1 : WorkerC.storeFind storeC1 key = none)
    (hC2 : WorkerC.storeFind storeC2 key = some { windowStart := ws, count := cc }) :
    WorkerA.storeFind (WorkerA.checkRateLimit storeA1 ip now).2 ip =
      some { count := 1, resetTime := now + WorkerA.windowMs }
    ∧ WorkerA.storeFind (WorkerA.checkRateLimit storeA2 ip now).2 ip =
      some (if now > rt then { count := 1, resetTime := now + WorkerA.windowMs }
            else { count := c + 1, resetTime := rt })
    ∧ WorkerC.storeFind (WorkerC.isRateLimited storeC1 key now).2 key =
      some { windowStart := now, count := 1 }
    ∧ WorkerC.storeFind (WorkerC.isRateLimited storeC2 key now).2 key =
      some (if now - ws > WorkerC.WINDOW_MS then { windowStart := now, count := 1 }
            else if cc ≥ WorkerC.MAX_REQUESTS then { windowStart := ws, count := cc }
            else { windowStart := ws, count := cc + 1 }) := by
  refine ⟨?_, ?_, ?_, ?_⟩
  · simp [WorkerA.checkRateLimit, hA1, WorkerA.storeFindA_storeSet]
  · by_cases h : now > rt <;>
      simp [WorkerA.checkRateLimit, hA2, WorkerA.storeFindA_storeSet, h]
  · simp [WorkerC.isRateLimited, hC1, WorkerC.storeFindC_storeSet]
  · by_cases h1 : now - ws > WorkerC.WINDOW_MS
    · simp [WorkerC.isRateLimited, hC2, WorkerC.storeFindC_storeSet, h1]
    · by_cases h2 : cc ≥ WorkerC.MAX_REQUESTS <;>
        simp [WorkerC.isRateLimited, hC2, WorkerC.storeFindC_storeSet, h1, h2, hC2]

/-- Witness for C9 (amended) at concrete stores, covering both the
fresh-key and the existing-record cases. -/
theorem claim_C9_witness :
    WorkerA.storeFind (WorkerA.checkRateLimit [] (some "1.2.3.4") 5).2 (some "1.2.3.4") =
      some { count := 1, resetTime := 5 + WorkerA.windowMs }
    ∧ WorkerA.storeFind
        (WorkerA.checkRateLimit [(some "1.2.3.4", { count := 7, resetTime := 60000 })]
          (some "1.2.3.4") 5).2 (some "1.2.3.4") =
      some (if (5 : Nat) > 60000 then { count := 1, resetTime := 5 + WorkerA.windowMs }
            else { count := 7 + 1, resetTime := 60000 })
    ∧ WorkerC.storeFind (WorkerC.isRateLimited [] "k" 5).2 "k" =
      some { windowStart := 5, count := 1 }
    ∧ WorkerC.storeFind
        (WorkerC.isRateLimited [("k", { windowStart := 0, count := 3 })] "k" 5).2 "k" =
      some (if (5 : Nat) - 0 > WorkerC.WINDOW_MS then { windowStart := 5, count := 1 }
            else if (3 : Nat) ≥ WorkerC.MAX_REQUESTS then { windowStart := 0, count := 3 }
            else { windowStart := 0, count := 3 + 1 }) :=
  claim_C9_record_invariant_amended []
    [(some "1.2.3.4", { count := 7, resetTime := 60000 })] []
    [("k", { windowStart := 0, count := 3 })]
    (some "1.2.3.4") "k" 5 7 60000 0 3 (by decide) (by decide) (by decide) (by decide)

/-- C7 counterexample: when the upstream `fetch` throws, the module worker
`src/unnamed/part_000` puts the exception's message verbatim into the JSON
body of its 500 response, and `src/cloudflare-worker.js` does the same — the
body is not free of internal exception details. -/
theorem claim_C7_counterexample :
    (WorkerB.handleRequest
      { method := "GET", path := "/epochs/latest/parameters",
        origin := some "https://gs1973.github.io", cfIP := some "1.2.3.4",
        bodyBytes := [], bodyText := "" } (some "KEY")
      (.error "connect ECONNREFUSED 104.18.7.2:443")).resp.status = 500
    ∧ (WorkerB.handleRequest
      { method := "GET", path := "/epochs/latest/parameters",
        origin := some "https://gs1973.github.io", cfIP := some "1.2.3.4",
        bodyBytes := [], bodyText := "" } (some "KEY")
      (.error "connect ECONNREFUSED 104.18.7.2:443")).resp.body =
      some "\x7b\"error\":\"Proxy error\",\"message\":\"connect ECONNREFUSED 104.18.7.2:443\"\x7d"
    ∧ (WorkerA.handleRequest (some "KEY")
      { method := "GET", path := "/api/epochs/latest",
        origin := some "https://gs1973.github.io", cfIP := some "1.2.3.4",
        bodyBytes := [], bodyText := "" } [] 0
      (.error "connect ECONNREFUSED 104.18.7.2:443")).resp.body =
      some "\x7b\"error\":\"connect ECONNREFUSED 104.18.7.2:443\"\x7d" := by
  refine ⟨by decide, by decide, by decide⟩

/-- C7 (amended): on an upstream transport exception every variant returns a
500 JSON response; only the guide worker of `src/DEPLOYMENT_GUIDE.md` keeps
the body safe — a fixed generic message, with the exception recorded only in
the server-side log — whereas `src/cloudflare-worker.js` returns
`\x7b"error": message\x7d` and the module worker `src/unnamed/part_000`
returns `\x7b"error":"Proxy error","message": message\x7d`, both echoing the
exception's message to the client. -/
theorem claim_C7_upstream_failure_amended (msg : String) (k : String)
    (kB kC : Option String) (reqA reqB : Request)
    (storeA : WorkerA.Store) (storeC : WorkerC.Store) (nowA nowC : Nat)
    (oA oB : String)
    (hk : k ≠ "")
    (hmA : reqA.method ≠ "OPTIONS") (hmB : reqB.method ≠ "OPTIONS")
    (hoA : reqA.origin = some oA) (hoAmem : oA ∈ WorkerA.ALLOWED_ORIGINS)
    (hoB : reqB.origin = some oB) (hoBmem : oB ∈ WorkerB.ALLOWED_ORIGINS)
    (hoB0 : oB ≠ "")
    (hrlA : (WorkerA.checkRateLimit storeA reqA.cfIP nowA).1 = true)
    (hepA : WorkerA.isAllowedEndpoint (replaceFirst reqA.path "/api/") = true)
    (hpB : WorkerB.isAllowedPath reqB.path = true)
    (hrlC : (WorkerC.isRateLimited storeC (WorkerC.getRateLimitKey reqB) nowC).1 = false) :
    ((WorkerC.fetchEntry reqB kC storeC nowC (.error msg)).resp.status = 500
     ∧ (WorkerC.fetchEntry reqB kC storeC nowC (.error msg)).resp.body =
       some WorkerC.genericErrorBody
     ∧ (WorkerC.fetchEntry reqB kC storeC nowC (.error msg)).log = some msg)
    ∧ ((WorkerB.fetchEntry reqB kB (.error msg)).resp.status = 500
     ∧ (WorkerB.fetchEntry reqB kB (.error msg)).resp.body =
       some (WorkerB.proxyErrorBody msg))
    ∧ ((WorkerA.handleRequest (some k) reqA storeA nowA (.error msg)).resp.status = 500
     ∧ (WorkerA.handleRequest (some k) reqA storeA nowA (.error msg)).resp.body =
       some (WorkerA.jsonErrorBody msg)) := by
  refine ⟨⟨?_, ?_, ?_⟩, ⟨?_, ?_⟩, ⟨?_, ?_⟩⟩ <;>
    simp [WorkerC.fetchEntry, WorkerC.handleRequest, WorkerB.fetchEntry,
      WorkerB.handleRequest, WorkerA.handleRequest, WorkerB.getCorsHeaders,
      isTruthy, hk, hmA, hmB, hoA, hoAmem, hoB, hoBmem, hoB0, hrlA, hepA,
      hpB, hrlC]

/-- Witness for C7 (amended) at a concrete thrown exception. -/
theorem claim_C7_witness :
    ((WorkerC.fetchEntry
        { method := "GET", path := "/epochs/latest/parameters",
          origin := some "https://gs1973.github.io", cfIP := some "1.2.3.4",
          bodyBytes := [], bodyText := "" } (some "KEY") [] 0
        (.error "boom")).resp.status = 500
     ∧ (WorkerC.fetchEntry
        { method := "GET", path := "/epochs/latest/parameters",
          origin := some "https://gs1973.github.io", cfIP := some "1.2.3.4",
          bodyBytes := [], bodyText := "" } (some "KEY") [] 0
        (.error "boom")).resp.body = some WorkerC.genericErrorBody
     ∧ (WorkerC.fetchEntry
        { method := "GET", path := "/epochs/latest/parameters",
          origin := some "https://gs1973.github.io", cfIP := some "1.2.3.4",
          bodyBytes := [], bodyText := "" } (some "KEY") [] 0
        (.error "boom")).log = some "boom")
    ∧ ((WorkerB.fetchEntry
        { method := "GET", path := "/epochs/latest/parameters",
          origin := some "https://gs1973.github.io", cfIP := some "1.2.3.4",
          bodyBytes := [], bodyText := "" } (some "KEY")
        (.error "boom")).resp.status = 500
     ∧ (WorkerB.fetchEntry
        { method := "GET", path := "/epochs/latest/parameters",
          origin := some "https://gs1973.github.io", cfIP := some "1.2.3.4",
          bodyBytes := [], bodyText := "" } (some "KEY")
        (.error "boom")).resp.body = some (WorkerB.proxyErrorBody "boom"))
    ∧ ((WorkerA.handleRequest (some "KEY")
        { method := "GET", path := "/api/epochs/latest",
          origin := some "https://gs1973.github.io", cfIP := some "1.2.3.4",
          bodyBytes := [], bodyText := "" } [] 0
        (.error "boom")).resp.status = 500
     ∧ (WorkerA.handleRequest (some "KEY")
        { method := "GET", path := "/api/epochs/latest",
          origin := some "https://gs1973.github.io", cfIP := some "1.2.3.4",
          bodyBytes := [], bodyText := "" } [] 0
        (.error "boom")).resp.body = some (WorkerA.jsonErrorBody "boom")) :=
  claim_C7_upstream_failure_amended "boom" "KEY" (some "KEY") (some "KEY")
    { method := "GET", path := "/api/epochs/latest",
      origin := some "https://gs1973.github.io", cfIP := some "1.2.3.4",
      bodyBytes := [], bodyText := "" }
    { method := "GET", path := "/epochs/latest/parameters",
      origin := some "https://gs1973.github.io", cfIP := some "1.2.3.4",
      bodyBytes := [], bodyText := "" } [] [] 0 0
    "https://gs1973.github.io" "https://gs1973.github.io"
    (by decide) (by decide) (by decide) rfl (by decide) rfl (by decide)
    (by decide) (by decide) (by decide) (by decide) (by decide)

/-- While the window of `checkRateLimit` has not expired and the counter has
room, a run of requests is all allowed and the counter just accumulates. -/
theorem runSeqA_within (ip : Option String) (rt : Nat) (ts : List Nat) :
    ∀ (store : WorkerA.Store) (c : Nat),
      WorkerA.storeFind store ip = some { count := c, resetTime := rt } →
      (∀ t ∈ ts, t ≤ rt) →
      c + ts.length ≤ WorkerA.maxRequests →
      (runSeqA store ip ts).1 = List.replicate ts.length true
      ∧ WorkerA.storeFind (runSeqA store ip ts).2 ip =
          some { count := c + ts.length, resetTime := rt } := by
  induction ts with
  | nil => intro store c hfind _ _; simpa [runSeqA] using hfind
  | cons t ts ih =>
    intro store c hfind hts hle
    have ht : ¬ t > rt := by
      have := hts t (by simp)
      omega
    have hlen : c + (ts.length + 1) ≤ WorkerA.maxRequests := by
      simpa [Nat.add_comm, Nat.add_assoc] using hle
    have hc1 : c + 1 ≤ WorkerA.maxRequests := by omega
    have hstep : WorkerA.checkRateLimit store ip t =
        (true, WorkerA.storeSet store ip { count := c + 1, resetTime := rt }) := by
      simp [WorkerA.checkRateLimit, hfind, ht, hc1]
    have hfind1 : WorkerA.storeFind
        (WorkerA.storeSet store ip { count := c + 1, resetTime := rt }) ip =
        some { count := c + 1, resetTime := rt } := WorkerA.storeFindA_storeSet ..
    have hrec := ih (WorkerA.storeSet store ip { count := c + 1, resetTime := rt })
      (c + 1) hfind1 (fun t' ht' => hts t' (by simp [ht'])) (by omega)
    have hcount : c + 1 + ts.length = c + (t :: ts).length := by
      simp only [List.length_cons]
      omega
    constructor
    · simp [runSeqA, hstep, hrec.1, List.replicate_succ]
    · rw [show (runSeqA store ip (t :: ts)).2 =
          (runSeqA (WorkerA.checkRateLimit store ip t).2 ip ts).2 from rfl, hstep]
      rw [← hcount]
      exact hrec.2

/-- While the window of the guide worker's `isRateLimited` has not expired
and the counter is below the maximum, a run of requests is never limited and
the counter just accumulates (the window start is untouched). -/
theorem runSeqC_within (key : String) (ws : Nat) (ts : List Nat) :
    ∀ (store : WorkerC.Store) (c : Nat),
      WorkerC.storeFind store key = some { windowStart := ws, count := c } →
      (∀ t ∈ ts, t - ws ≤ WorkerC.WINDOW_MS) →
      c + ts.length ≤ WorkerC.MAX_REQUESTS →
      (runSeqC store key ts).1 = List.replicate ts.length false
      ∧ WorkerC.storeFind (runSeqC store key ts).2 key =
          some { windowStart := ws, count := c + ts.length } := by
  induction ts with
  | nil => intro store c hfind _ _; simpa [runSeqC] using hfind
  | cons t ts ih =>
    intro store c hfind hts hle
    have ht : ¬ t - ws > WorkerC.WINDOW_MS := by
      have := hts t (by simp)
      omega
    have hlen : c + (ts.length + 1) ≤ WorkerC.MAX_REQUESTS := by
      simpa [Nat.add_comm, Nat.add_assoc] using hle
    have hc1 : ¬ c ≥ WorkerC.MAX_REQUESTS := by omega
    have hstep : WorkerC.isRateLimited store key t =
        (false, WorkerC.storeSet store key { windowStart := ws, count := c + 1 }) := by
      simp [WorkerC.isRateLimited, hfind, ht, hc1]
    have hfind1 : WorkerC.storeFind
        (WorkerC.storeSet store key { windowStart := ws, count := c + 1 }) key =
        some { windowStart := ws, count := c + 1 } := WorkerC.storeFindC_storeSet ..
    have hrec := ih (WorkerC.storeSet store key { windowStart := ws, count := c + 1 })
      (c + 1) hfind1 (fun t' ht' => hts t' (by simp [ht'])) (by omega)
    have hcount : c + 1 + ts.length = c + (t :: ts).length := by
      simp only [List.length_cons]
      omega
    constructor
    · simp [runSeqC, hstep, hrec.1, List.replicate_succ]
    · rw [show (runSeqC store key (t :: ts)).2 =
          (runSeqC (WorkerC.isRateLimited store key t).2 key ts).2 from rfl, hstep]
      rw [← hcount]
      exact hrec.2

/-- One `checkRateLimit` step on an existing, unexpired record: the counter
is incremented and the request is allowed while it stays within the limit. -/
theorem WorkerA.checkRateLimit_within (S : WorkerA.Store) (ip : Option String)
    (c rt now : Nat)
    (hfind : WorkerA.storeFind S ip = some { count := c, resetTime := rt })
    (hnr : ¬ now > rt) :
    WorkerA.checkRateLimit S ip now =
      (decide (c + 1 ≤ WorkerA.maxRequests),
       WorkerA.storeSet S ip { count := c + 1, resetTime := rt }) := by
  simp [WorkerA.checkRateLimit, hfind, hnr]

/-- One `checkRateLimit` step past the window end: the record is reset and
the request is allowed. -/
theorem WorkerA.checkRateLimit_reset (S : WorkerA.Store) (ip : Option String)
    (c rt now : Nat)
    (hfind : WorkerA.storeFind S ip = some { count := c, resetTime := rt })
    (hgt : now > rt) :
    WorkerA.checkRateLimit S ip now =
      (true, WorkerA.storeSet S ip
        { count := 1, resetTime := now + WorkerA.windowMs }) := by
  simp [WorkerA.checkRateLimit, hfind, hgt, WorkerA.maxRequests]

/-- One `checkRateLimit` step on a fresh key: count 1, allowed. -/
theorem WorkerA.checkRateLimit_fresh (S : WorkerA.Store) (ip : Option String)
    (now : Nat) (hfind : WorkerA.storeFind S ip = none) :
    WorkerA.checkRateLimit S ip now =
      (true, WorkerA.storeSet S ip
        { count := 1, resetTime := now + WorkerA.windowMs }) := by
  have hnr : ¬ now > now + WorkerA.windowMs := by omega
  simp [WorkerA.checkRateLimit, hfind, hnr, WorkerA.maxRequests]

/-- One `isRateLimited` step on a fresh key: a new window with count 1. -/
theorem WorkerC.isRateLimited_fresh (S : WorkerC.Store) (key : String)
    (now : Nat) (hfind : WorkerC.storeFind S key = none) :
    WorkerC.isRateLimited S key now =
      (false, WorkerC.storeSet S key { windowStart := now, count := 1 }) := by
  simp [WorkerC.isRateLimited, hfind]

/-- One `isRateLimited` step past the window end: a new window with count 1. -/
theorem WorkerC.isRateLimited_expired (S : WorkerC.Store) (key : String)
    (ws c now : Nat)
    (hfind : WorkerC.storeFind S key = some { windowStart := ws, count := c })
    (hgt : now - ws > WorkerC.WINDOW_MS) :
    WorkerC.isRateLimited S key now =
      (false, WorkerC.storeSet S key { windowStart := now, count := 1 }) := by
  simp [WorkerC.isRateLimited, hfind, hgt]

/-- One `isRateLimited` step inside the window at the maximum: limited, and
the store is left untouched. -/
theorem WorkerC.isRateLimited_saturated (S : WorkerC.Store) (key : String)
    (ws c now : Nat)
    (hfind : WorkerC.storeFind S key = some { windowStart := ws, count := c })
    (hnr : ¬ now - ws > WorkerC.WINDOW_MS) (hsat : c ≥ WorkerC.MAX_REQUESTS) :
    WorkerC.isRateLimited S key now = (true, S) := by
  simp [WorkerC.isRateLimited, hfind, hnr, hsat]

/-- C2 counterexample: running the claimed scenario against
`src/cloudflare-worker.js` (`M = 100` requests from one client, all at time 0,
then the 101st), the 101st request is indeed rejected with status 429 — but
the 429 response carries no `Retry-After` header, contrary to the claim. -/
theorem claim_C2_counterexample :
    (runSeqA [] (some "1.2.3.4") (List.replicate 100 0)).1 = List.replicate 100 true
    ∧ (WorkerA.handleRequest (some "KEY")
        { method := "GET", path := "/api/epochs/latest",
          origin := some "https://gs1973.github.io", cfIP := some "1.2.3.4",
          bodyBytes := [], bodyText := "" }
        (runSeqA [] (some "1.2.3.4") (List.replicate 100 0)).2 0
        (.ok { status := 200, body := "ok", contentType := none })).resp.status = 429
    ∧ (WorkerA.handleRequest (some "KEY")
        { method := "GET", path := "/api/epochs/latest",
          origin := some "https://gs1973.github.io", cfIP := some "1.2.3.4",
          bodyBytes := [], bodyText := "" }
        (runSeqA [] (some "1.2.3.4") (List.replicate 100 0)).2 0
        (.ok { status := 200, body := "ok", contentType := none })).resp.headers.retryAfter
      = none := by
  refine ⟨by decide, by decide, by decide⟩

/-- C2 (amended): for a fresh client identifier, `M + 1` requests within one
window duration are handled as claimed — the first `M` pass the limiter and
the `(M+1)`-th is rejected with status 429, and a later request past the
window end starts a fresh window with count 1 and is allowed — in both rate
limiters; but only the guide worker's 429 carries a `Retry-After: 60` header,
while the 429 of `src/cloudflare-worker.js` carries no `Retry-After` at all. -/
theorem claim_C2_rate_limit_amended
    (ip : Option String) (key : String)
    (t0A tNA tEA t0C tNC tEC : Nat) (tsA tsC : List Nat)
    (storeA : WorkerA.Store) (storeC : WorkerC.Store)
    (k : String) (kC : Option String) (reqA reqC : Request)
    (uA uC : UpstreamResult) (oA oC : String)
    (hfreshA : WorkerA.storeFind storeA ip = none)
    (hlenA : tsA.length = WorkerA.maxRequests - 1)
    (htsA : ∀ t ∈ tsA, t ≤ t0A + WorkerA.windowMs)
    (htNA : tNA ≤ t0A + WorkerA.windowMs)
    (htEA : tEA > t0A + WorkerA.windowMs)
    (hk : k ≠ "") (hmA : reqA.method ≠ "OPTIONS")
    (hoA : reqA.origin = some oA) (hoAmem : oA ∈ WorkerA.ALLOWED_ORIGINS)
    (hipA : reqA.cfIP = ip)
    (hfreshC : WorkerC.storeFind storeC key = none)
    (hlenC : tsC.length = WorkerC.MAX_REQUESTS - 1)
    (htsC : ∀ t ∈ tsC, t - t0C ≤ WorkerC.WINDOW_MS)
    (htNC : tNC - t0C ≤ WorkerC.WINDOW_MS)
    (htEC : tEC - t0C > WorkerC.WINDOW_MS)
    (hmC : reqC.method ≠ "OPTIONS")
    (hoC : reqC.origin = some oC) (hoCmem : oC ∈ WorkerB.ALLOWED_ORIGINS)
    (hoC0 : oC ≠ "") (hipC : WorkerC.getRateLimitKey reqC = key) :
    ((WorkerA.checkRateLimit storeA ip t0A).1 = true
     ∧ (runSeqA (WorkerA.checkRateLimit storeA ip t0A).2 ip tsA).1 =
         List.replicate tsA.length true
     ∧ (WorkerA.handleRequest (some k) reqA
          (runSeqA (WorkerA.checkRateLimit storeA ip t0A).2 ip tsA).2 tNA uA).resp.status = 429
     ∧ (WorkerA.handleRequest (some k) reqA
          (runSeqA (WorkerA.checkRateLimit storeA ip t0A).2 ip tsA).2 tNA uA).resp.headers.retryAfter = none
     ∧ (WorkerA.handleRequest (some k) reqA
          (runSeqA (WorkerA.checkRateLimit storeA ip t0A).2 ip tsA).2 tNA uA).call = none
     ∧ (WorkerA.checkRateLimit
          (WorkerA.handleRequest (some k) reqA
            (runSeqA (WorkerA.checkRateLimit storeA ip t0A).2 ip tsA).2 tNA uA).store
          ip tEA).1 = true
     ∧ WorkerA.storeFind
         (WorkerA.checkRateLimit
           (WorkerA.handleRequest (some k) reqA
             (runSeqA (WorkerA.checkRateLimit storeA ip t0A).2 ip tsA).2 tNA uA).store
           ip tEA).2 ip =
         some { count := 1, resetTime := tEA + WorkerA.windowMs })
    ∧ ((WorkerC.isRateLimited storeC key t0C).1 = false
     ∧ (runSeqC (WorkerC.isRateLimited storeC key t0C).2 key tsC).1 =
         List.replicate tsC.length false
     ∧ (WorkerC.fetchEntry reqC kC
          (runSeqC (WorkerC.isRateLimited storeC key t0C).2 key tsC).2 tNC uC).resp.status = 429
     ∧ (WorkerC.fetchEntry reqC kC
          (runSeqC (WorkerC.isRateLimited storeC key t0C).2 key tsC).2 tNC uC).resp.headers.retryAfter = some "60"
     ∧ (WorkerC.fetchEntry reqC kC
          (runSeqC (WorkerC.isRateLimited storeC key t0C).2 key tsC).2 tNC uC).resp.body =
         some WorkerC.tooManyRequestsBody
     ∧ (WorkerC.fetchEntry reqC kC
          (runSeqC (WorkerC.isRateLimited storeC key t0C).2 key tsC).2 tNC uC).call = none
     ∧ (WorkerC.isRateLimited
          (runSeqC (WorkerC.isRateLimited storeC key t0C).2 key tsC).2 key tEC).1 = false
     ∧ WorkerC.storeFind
         (WorkerC.isRateLimited
           (runSeqC (WorkerC.isRateLimited storeC key t0C).2 key tsC).2 key tEC).2 key =
         some { windowStart := tEC, count := 1 }) := by
  have hmaxA : WorkerA.maxRequests = 100 := rfl
  have hmaxC : WorkerC.MAX_REQUESTS = 30 := rfl
  -- first request of the `checkRateLimit` window
  have hA1 := WorkerA.checkRateLimit_fresh storeA ip t0A hfreshA
  have hfindA1 : WorkerA.storeFind (WorkerA.checkRateLimit storeA ip t0A).2 ip =
      some { count := 1, resetTime := t0A + WorkerA.windowMs } := by
    rw [hA1]; exact WorkerA.storeFindA_storeSet ..
  have hrunA := runSeqA_within ip (t0A + WorkerA.windowMs) tsA
    (WorkerA.checkRateLimit storeA ip t0A).2 1 hfindA1 htsA (by omega)
  -- the (M+1)-th request is limited, and the counter still increments
  have hlimA : WorkerA.checkRateLimit
      (runSeqA (WorkerA.checkRateLimit storeA ip t0A).2 ip tsA).2 ip tNA =
      (false, WorkerA.storeSet (runSeqA (WorkerA.checkRateLimit storeA ip t0A).2 ip tsA).2 ip
        { count := 1 + tsA.length + 1, resetTime := t0A + WorkerA.windowMs }) := by
    rw [WorkerA.checkRateLimit_within _ ip (1 + tsA.length) (t0A + WorkerA.windowMs) tNA
      hrunA.2 (by omega)]
    have hover : ¬ (1 + tsA.length + 1 ≤ WorkerA.maxRequests) := by omega
    simp [hover]
  have hHA : WorkerA.handleRequest (some k) reqA
      (runSeqA (WorkerA.checkRateLimit storeA ip t0A).2 ip tsA).2 tNA uA =
      { resp := { status := 429, body := some "Rate limit exceeded",
                  headers := WorkerA.getCORSHeaders reqA.origin },
        store := (WorkerA.checkRateLimit
          (runSeqA (WorkerA.checkRateLimit storeA ip t0A).2 ip tsA).2 ip tNA).2,
        call := none } := by
    simp only [WorkerA.handleRequest, isTruthy, hoA, hipA, hlimA]
    simp [hk, hmA, hoAmem]
  -- the request past the window end resets the window
  have hfindA101 : WorkerA.storeFind
      (WorkerA.checkRateLimit
        (runSeqA (WorkerA.checkRateLimit storeA ip t0A).2 ip tsA).2 ip tNA).2 ip =
      some { count := 1 + tsA.length + 1, resetTime := t0A + WorkerA.windowMs } := by
    rw [hlimA]; exact WorkerA.storeFindA_storeSet ..
  have hresetA := WorkerA.checkRateLimit_reset _ ip (1 + tsA.length + 1)
    (t0A + WorkerA.windowMs) tEA hfindA101 htEA
  -- first request of the `isRateLimited` window
  have hC1 := WorkerC.isRateLimited_fresh storeC key t0C hfreshC
  have hfindC1 : WorkerC.storeFind (WorkerC.isRateLimited storeC key t0C).2 key =
      some { windowStart := t0C, count := 1 } := by
    rw [hC1]; exact WorkerC.storeFindC_storeSet ..
  have hrunC := runSeqC_within key t0C tsC
    (WorkerC.isRateLimited storeC key t0C).2 1 hfindC1 htsC (by omega)
  -- the (M+1)-th request is limited and the record is left untouched
  have hlimC := WorkerC.isRateLimited_saturated _ key t0C (1 + tsC.length) tNC
    hrunC.2 (by omega) (by omega)
  have hHC : WorkerC.fetchEntry reqC kC
      (runSeqC (WorkerC.isRateLimited storeC key t0C).2 key tsC).2 tNC uC =
      { resp := { status := 429, body := some WorkerC.tooManyRequestsBody,
                  headers := { WorkerB.getCorsHeaders reqC.origin with
                               contentType := some "application/json",
                               retryAfter := some "60" } },
        store := (runSeqC (WorkerC.isRateLimited storeC key t0C).2 key tsC).2,
        call := none, log := none } := by
    simp only [WorkerC.fetchEntry, WorkerC.handleRequest, hipC, hlimC]
    simp [WorkerB.getCorsHeaders, isTruthy, hmC, hoC, hoCmem, hoC0]
  have hresetC := WorkerC.isRateLimited_expired _ key t0C (1 + tsC.length) tEC
    hrunC.2 htEC
  refine ⟨⟨?_, hrunA.1, ?_, ?_, ?_, ?_, ?_⟩, ⟨?_, hrunC.1, ?_, ?_, ?_, ?_, ?_, ?_⟩⟩
  · rw [hA1]
  · rw [hHA]
  · rw [hHA]
    by_cases h : isTruthy reqA.origin <;> simp [WorkerA.getCORSHeaders, h]
  · rw [hHA]
  · rw [hHA]; dsimp only; rw [hresetA]
  · rw [hHA]; dsimp only; rw [hresetA]; dsimp only
    exact WorkerA.storeFindA_storeSet ..
  · rw [hC1]
  · rw [hHC]
  · rw [hHC]
  · rw [hHC]
  · rw [hHC]
  · rw [hresetC]
  · rw [hresetC]; dsimp only
    exact WorkerC.storeFindC_storeSet ..

/-- Witness for C2 (amended): a fresh client, 100 (resp. 30) requests inside
the window, the next request limited, and a request past the window end. -/
theorem claim_C2_witness :
    ((WorkerA.checkRateLimit [] (some "1.2.3.4") 0).1 = true
     ∧ (runSeqA (WorkerA.checkRateLimit [] (some "1.2.3.4") 0).2 (some "1.2.3.4")
          (List.replicate 99 0)).1 = List.replicate (List.replicate 99 (0 : Nat)).length true
     ∧ (WorkerA.handleRequest (some "KEY")
          { method := "GET", path := "/api/epochs/latest",
            origin := some "https://gs1973.github.io", cfIP := some "1.2.3.4",
            bodyBytes := [], bodyText := "" }
          (runSeqA (WorkerA.checkRateLimit [] (some "1.2.3.4") 0).2 (some "1.2.3.4")
            (List.replicate 99 0)).2 1
          (.ok { status := 200, body := "ok", contentType := none })).resp.status = 429
     ∧ (WorkerA.handleRequest (some "KEY")
          { method := "GET", path := "/api/epochs/latest",
            origin := some "https://gs1973.github.io", cfIP := some "1.2.3.4",
            bodyBytes := [], bodyText := "" }
          (runSeqA (WorkerA.checkRateLimit [] (some "1.2.3.4") 0).2 (some "1.2.3.4")
            (List.replicate 99 0)).2 1
          (.ok { status := 200, body := "ok", contentType := none })).resp.headers.retryAfter = none
     ∧ (WorkerA.handleRequest (some "KEY")
          { method := "GET", path := "/api/epochs/latest",
            origin := some "https://gs1973.github.io", cfIP := some "1.2.3.4",
            bodyBytes := [], bodyText := "" }
          (runSeqA (WorkerA.checkRateLimit [] (some "1.2.3.4") 0).2 (some "1.2.3.4")
            (List.replicate 99 0)).2 1
          (.ok { status := 200, body := "ok", contentType := none })).call = none
     ∧ (WorkerA.checkRateLimit
          (WorkerA.handleRequest (some "KEY")
            { method := "GET", path := "/api/epochs/latest",
              origin := some "https://gs1973.github.io", cfIP := some "1.2.3.4",
              bodyBytes := [], bodyText := "" }
            (runSeqA (WorkerA.checkRateLimit [] (some "1.2.3.4") 0).2 (some "1.2.3.4")
              (List.replicate 99 0)).2 1
            (.ok { status := 200, body := "ok", contentType := none })).store
          (some "1.2.3.4") 60001).1 = true
     ∧ WorkerA.storeFind
         (WorkerA.checkRateLimit
           (WorkerA.handleRequest (some "KEY")
             { method := "GET", path := "/api/epochs/latest",
               origin := some "https://gs1973.github.io", cfIP := some "1.2.3.4",
               bodyBytes := [], bodyText := "" }
             (runSeqA (WorkerA.checkRateLimit [] (some "1.2.3.4") 0).2 (some "1.2.3.4")
               (List.replicate 99 0)).2 1
             (.ok { status := 200, body := "ok", contentType := none })).store
           (some "1.2.3.4") 60001).2 (some "1.2.3.4") =
         some { count := 1, resetTime := 60001 + WorkerA.windowMs })
    ∧ ((WorkerC.isRateLimited [] "1.2.3.4" 0).1 = false
     ∧ (runSeqC (WorkerC.isRateLimited [] "1.2.3.4" 0).2 "1.2.3.4"
          (List.replicate 29 0)).1 = List.replicate (List.replicate 29 (0 : Nat)).length false
     ∧ (WorkerC.fetchEntry
          { method := "GET", path := "/epochs/latest/parameters",
            origin := some "https://gs1973.github.io", cfIP := some "1.2.3.4",
            bodyBytes := [], bodyText := "" } (some "KEY")
          (runSeqC (WorkerC.isRateLimited [] "1.2.3.4" 0).2 "1.2.3.4"
            (List.replicate 29 0)).2 1
          (.ok { status := 200, body := "ok", contentType := none })).resp.status = 429
     ∧ (WorkerC.fetchEntry
          { method := "GET", path := "/epochs/latest/parameters",
            origin := some "https://gs1973.github.io", cfIP := some "1.2.3.4",
            bodyBytes := [], bodyText := "" } (some "KEY")
          (runSeqC (WorkerC.isRateLimited [] "1.2.3.4" 0).2 "1.2.3.4"
            (List.replicate 29 0)).2 1
          (.ok { status := 200, body := "ok", contentType := none })).resp.headers.retryAfter =
         some "60"
     ∧ (WorkerC.fetchEntry
          { method := "GET", path := "/epochs/latest/parameters",
            origin := some "https://gs1973.github.io", cfIP := some "1.2.3.4",
            bodyBytes := [], bodyText := "" } (some "KEY")
          (runSeqC (WorkerC.isRateLimited [] "1.2.3.4" 0).2 "1.2.3.4"
            (List.replicate 29 0)).2 1
          (.ok { status := 200, body := "ok", contentType := none })).resp.body =
         some WorkerC.tooManyRequestsBody
     ∧ (WorkerC.fetchEntry
          { method := "GET", path := "/epochs/latest/parameters",
            origin := some "https://gs1973.github.io", cfIP := some "1.2.3.4",
            bodyBytes := [], bodyText := "" } (some "KEY")
          (runSeqC (WorkerC.isRateLimited [] "1.2.3.4" 0).2 "1.2.3.4"
            (List.replicate 29 0)).2 1
          (.ok { status := 200, body := "ok", contentType := none })).call = none
     ∧ (WorkerC.isRateLimited
          (runSeqC (WorkerC.isRateLimited [] "1.2.3.4" 0).2 "1.2.3.4"
            (List.replicate 29 0)).2 "1.2.3.4" 60001).1 = false
     ∧ WorkerC.storeFind
         (WorkerC.isRateLimited
           (runSeqC (WorkerC.isRateLimited [] "1.2.3.4" 0).2 "1.2.3.4"
             (List.replicate 29 0)).2 "1.2.3.4" 60001).2 "1.2.3.4" =
         some { windowStart := 60001, count := 1 }) :=
  claim_C2_rate_limit_amended (some "1.2.3.4") "1.2.3.4" 0 1 60001 0 1 60001
    (List.replicate 99 0) (List.replicate 29 0) [] [] "KEY" (some "KEY")
    { method := "GET", path := "/api/epochs/latest",
      origin := some "https://gs1973.github.io", cfIP := some "1.2.3.4",
      bodyBytes := [], bodyText := "" }
    { method := "GET", path := "/epochs/latest/parameters",
      origin := some "https://gs1973.github.io", cfIP := some "1.2.3.4",
      bodyBytes := [], bodyText := "" }
    (.ok { status := 200, body := "ok", contentType := none })
    (.ok { status := 200, body := "ok", contentType := none })
    "https://gs1973.github.io" "https://gs1973.github.io"
    (by decide) (by decide) (by decide) (by decide) (by decide) (by decide)
    (by decide) rfl (by decide) rfl (by decide) (by decide) (by decide)
    (by decide) (by decide) (by decide) rfl (by decide) (by decide) (by decide)

end Proxy

